import Mathlib

/-!
# Verity verification engine: a shallow embedding

This file embeds the core of the `verity` fact-checking service in Lean 4
and proves properties of the embedded code.

The embedded components (translated from `internal/models/models.go`,
`internal/search/pubmed.go` (aggregator half), the `verify` package's
`ClaimVerifier`, `ClaimExtractor.parseResponse` and `Engine`):

* the data model (`Evidence`, `Warning`, `Claim`, `AnalysisResult`,
  `VerificationResponse`);
* `ClaimVerifier.Verify` / `ClaimVerifier.VerifyWithoutEvidence`, with the
  language-model call modelled as an oracle argument (the combined outcome
  of `provider.CompleteWithSystem` followed by `parseResponse`), plus an
  instrumentation flag recording whether that oracle was consulted;
* `AggregatedSearchClient.Search`, with the `select` loop modelled over an
  explicit trace of case firings (`CollectEvent`), `none` standing for the
  loop being blocked waiting for an event the trace does not contain;
* `ClaimExtractor.parseResponse`'s final claim-construction loop;
* `Engine.verifyClaims` (sequential model of the per-claim tasks, in claim
  order — the Go code writes each result to its own index, so claim order
  is deterministic) and `Engine.calculateAnalysis`;
* `Engine.VerifyText`, with the store and the extractor modelled as oracle
  arguments and a `RunTrace` recording how many extraction and per-claim
  verification calls were made;
* a small-step model of the 5-slot admission semaphore in
  `Engine.verifyClaims` (`PoolStep`, `PoolReachable`).

Go `float64` score arithmetic is embedded over `ℚ`; the scores involved
(`0.5` weights, counts, a division and a `* 10`) make the `[0, 10]`
bounds and the boundary characterisations independent of rounding.
-/

/-- Go `models.StatusVerified`. -/
def StatusVerified : String := "verified"

/-- Go `models.StatusMixed`. -/
def StatusMixed : String := "mixed"

/-- Go `models.StatusUnsupported`. -/
def StatusUnsupported : String := "unsupported"

/-- Go `models.StatusPending`. -/
def StatusPending : String := "pending"

/-- Go `models.SourceTypeEvidenceBacked`. -/
def SourceTypeEvidenceBacked : String := "evidence_backed"

/-- Go `models.SourceTypeModelBased`. -/
def SourceTypeModelBased : String := "model_based"

/-- Go `models.Evidence` (`models.go`).  `retrievedAt` abstracts
`time.Time` as a tick count; `relevanceScore` is a `float64` in Go,
embedded as `ℚ`. -/
structure Evidence where
  id : String
  sourceName : String
  sourceURL : String
  sourceType : String
  snippet : String
  relevanceScore : ℚ
  retrievedAt : Nat
deriving Repr, DecidableEq

/-- Go `models.Warning` (`models.go`). -/
structure Warning where
  source : String
  message : String
deriving Repr, DecidableEq

/-- Go `models.Claim` (`models.go`).  `status`, `type`, `sourceType` are
string-typed in Go (`VerificationStatus`, `ClaimType`, `SourceType` are
string aliases), kept as `String` here. -/
structure Claim where
  id : String
  text : String
  type : String
  sentenceIndex : Int
  status : String
  confidence : ℚ
  sourceType : String
  evidences : List Evidence
  reasoning : String
  createdAt : Nat
deriving Repr, DecidableEq

/-- Go `models.AnalysisResult` (`models.go`).  Count fields are Go `int`s
that only ever hold non-negative counts, embedded as `Nat`;
`overallScore` is a `float64`, embedded as `ℚ`. -/
structure AnalysisResult where
  id : String
  documentHash : String
  overallScore : ℚ
  totalClaims : Nat
  verifiedClaims : Nat
  mixedClaims : Nat
  unsupportedClaims : Nat
  processingTimeMs : Int
  status : String
  createdAt : Nat
deriving Repr, DecidableEq

/-- Go `models.VerificationResponse` (`models.go`). -/
structure VerificationResponse where
  id : String
  documentHash : String
  analysis : AnalysisResult
  claims : List Claim
  warnings : List Warning
deriving Repr, DecidableEq

/-- Go `verificationResult` (the JSON payload a verification completion is
parsed into): a status string, a confidence score and a reasoning text. -/
structure ParsedVerification where
  status : String
  confidence : ℚ
  reasoning : String
deriving Repr, DecidableEq

/-- The `switch result.Status` in `ClaimVerifier.Verify` /
`VerifyWithoutEvidence`: `status` starts as `StatusUnsupported` and only
the three recognised strings change it, so any unrecognised value maps to
`StatusUnsupported`. -/
def mapVerificationStatus (s : String) : String :=
  if s = "verified" then StatusVerified
  else if s = "mixed" then StatusMixed
  else if s = "unsupported" then StatusUnsupported
  else StatusUnsupported

/-- The four Go return values of `ClaimVerifier.Verify` /
`VerifyWithoutEvidence` (`status, confidence, reasoning, err`), plus one
instrumentation field `llmCalled` recording whether the language-model
provider was invoked on this call. -/
structure VerifyReturn where
  status : String
  confidence : ℚ
  reasoning : String
  err : Option String
  llmCalled : Bool
deriving Repr, DecidableEq

/-- `ClaimVerifier.Verify` (verifier file of the `verify` package).  The
`llm` argument is the oracle outcome of the provider call combined with
`parseResponse` (`Except.error` covering both a provider error and an
unparseable response; the Go code returns a non-nil `err` and zero values
in either case).  With an empty evidence list the Go code returns before
building any prompt, so `llmCalled = false` there. -/
def ClaimVerifier.Verify (_claim : Claim) (evidences : List Evidence)
    (llm : Except String ParsedVerification) : VerifyReturn :=
  if evidences.length = 0 then
    { status := StatusUnsupported, confidence := 0
      reasoning := "No evidence found to support this claim"
      err := none, llmCalled := false }
  else
    match llm with
    | Except.error e =>
      { status := StatusUnsupported, confidence := 0, reasoning := ""
        err := some e, llmCalled := true }
    | Except.ok r =>
      { status := mapVerificationStatus r.status, confidence := r.confidence
        reasoning := r.reasoning, err := none, llmCalled := true }

/-- The disclaimer `VerifyWithoutEvidence` appends to the returned
reasoning. -/
def knowledgeOnlyDisclaimer : String :=
  " [Note: Verified using model knowledge only, without external evidence sources]"

/-- `ClaimVerifier.VerifyWithoutEvidence` (air-gapped / fallback mode):
always one provider call; on success the reasoning is suffixed with the
model-knowledge disclaimer. -/
def ClaimVerifier.VerifyWithoutEvidence (_claim : Claim)
    (llm : Except String ParsedVerification) : VerifyReturn :=
  match llm with
  | Except.error e =>
    { status := StatusUnsupported, confidence := 0, reasoning := ""
      err := some e, llmCalled := true }
  | Except.ok r =>
    { status := mapVerificationStatus r.status, confidence := r.confidence
      reasoning := r.reasoning ++ knowledgeOnlyDisclaimer
      err := none, llmCalled := true }

/-- Go `search.SearchResult`: what one source's goroutine sends on the
`results` channel.  `error` is `none` for a successful search. -/
structure SearchResult where
  source : String
  evidences : List Evidence
  error : Option String
deriving Repr, DecidableEq

/-- One firing of the `select` in `AggregatedSearchClient.Search`'s
collection loop: a source result arriving on the `results` channel, the
15-second `time.After` timer firing (it fires at most once per call), or
the caller's context being cancelled. -/
inductive CollectEvent where
  | result (r : SearchResult)
  | timeout
  | cancelled
deriving Repr, DecidableEq

/-- The body of one iteration of the collection loop in
`AggregatedSearchClient.Search`: an errored result becomes a `Warning`, a
successful result's evidences are appended, the timeout and cancellation
cases append their fixed warnings.  The Go `break` statements in the
timeout/cancellation cases exit only the `select`, never the `for` loop,
so the step function returns plain accumulators and the loop (below)
always runs `len(a.clients)` iterations. -/
def collectStep (acc : List Evidence × List Warning) (e : CollectEvent) :
    List Evidence × List Warning :=
  match e with
  | CollectEvent.result r =>
    match r.error with
    | some msg => (acc.1, acc.2 ++ [{ source := r.source, message := msg }])
    | none => (acc.1 ++ r.evidences, acc.2)
  | CollectEvent.timeout =>
    (acc.1, acc.2 ++ [{ source := "search", message := "Some sources timed out" }])
  | CollectEvent.cancelled =>
    (acc.1, acc.2 ++ [{ source := "search", message := "Search cancelled" }])

/-- The collection loop `for i := 0; i < len(a.clients); i++ { select … }`
of `AggregatedSearchClient.Search`, run over an explicit trace of `select`
firings.  Each iteration blocks until a case fires; `none` means the loop
reached an iteration with no further event in the trace, i.e. the call is
blocked and never returns under that trace. -/
def collectLoop : Nat → List CollectEvent → (List Evidence × List Warning) →
    Option (List Evidence × List Warning)
  | 0, _, acc => some acc
  | _ + 1, [], _ => none
  | n + 1, e :: rest, acc => collectLoop n rest (collectStep acc e)

/-- `AggregatedSearchClient.Search` (`pubmed.go`, aggregator half).
`clients` are the names of the available clients (the aggregator's
constructor has already filtered on `Available()`); `events` is the trace
of `select` firings.  With zero clients the Go code returns `nil`
evidence and exactly the one "No search sources configured" warning
before spawning anything. -/
def AggregatedSearchClient.Search (clients : List String)
    (events : List CollectEvent) : Option (List Evidence × List Warning) :=
  if clients.length = 0 then
    some ([], [{ source := "search", message := "No search sources configured" }])
  else
    collectLoop clients.length events ([], [])

/-- `AggregatedSearchClient.HasClients`. -/
def AggregatedSearchClient.HasClients (clients : List String) : Bool :=
  clients.length != 0

/-- Go `extractedClaim` (`ClaimExtractor`'s JSON payload element). -/
structure ExtractedClaim where
  text : String
  type : String
  sentenceIndex : Int
deriving Repr, DecidableEq

/-- The claim-construction loop at the end of
`ClaimExtractor.parseResponse`: each parsed element becomes a
`models.Claim` with a fresh id, the text, type and sentence index copied
over verbatim, and status `pending`; every other field keeps its Go zero
value.  `freshId` abstracts `uuid.New().String()` by element position. -/
def ClaimExtractor.claimsFromParsed (freshId : Nat → String) :
    Nat → List ExtractedClaim → List Claim
  | _, [] => []
  | i, ec :: rest =>
    { id := freshId i, text := ec.text, type := ec.type
      sentenceIndex := ec.sentenceIndex, status := StatusPending
      confidence := 0, sourceType := "", evidences := [], reasoning := ""
      createdAt := 0 } :: ClaimExtractor.claimsFromParsed freshId (i + 1) rest

/-- The per-claim oracle environment for one task of
`Engine.verifyClaims`: the aggregator outcome for the claim's text (what
`e.searchClient.Search(ctx, claim.Text, 6)` returned), and the
language-model oracle for each of the two verifier entry points the task
may invoke. -/
structure ClaimOracle where
  searchOutcome : List Evidence × List Warning
  evidenceLLM : Except String ParsedVerification
  knowledgeLLM : Except String ParsedVerification

/-- The body of one per-claim goroutine in `Engine.verifyClaims`: chooses
the air-gapped, fallback or evidence-backed path, degrades a verification
error to `unsupported` with the corresponding generic reasoning, and
writes status, confidence, reasoning, source type, evidences and
timestamp into the claim.  Returns the updated claim together with the
search warnings this task appended to the run's warning list. -/
def Engine.verifyOne (airGapped : Bool) (now : Nat) (o : ClaimOracle)
    (c : Claim) : Claim × List Warning :=
  if airGapped then
    let r := ClaimVerifier.VerifyWithoutEvidence c o.knowledgeLLM
    let st := if r.err.isSome then StatusUnsupported else r.status
    let reas := if r.err.isSome then "Verification error" else r.reasoning
    ({ c with
        status := st, confidence := r.confidence, reasoning := reas,
        sourceType := SourceTypeModelBased, evidences := [], createdAt := now },
     [])
  else
    let searchResults := o.searchOutcome.1
    let searchWarnings := o.searchOutcome.2
    if searchResults.length = 0 then
      let r := ClaimVerifier.VerifyWithoutEvidence c o.knowledgeLLM
      let st := if r.err.isSome then StatusUnsupported else r.status
      let reas := if r.err.isSome then "Verification error - no evidence found"
        else r.reasoning
      ({ c with
          status := st, confidence := r.confidence, reasoning := reas,
          sourceType := SourceTypeModelBased, evidences := [], createdAt := now },
       searchWarnings)
    else
      let r := ClaimVerifier.Verify c searchResults o.evidenceLLM
      let st := if r.err.isSome then StatusUnsupported else r.status
      let reas := if r.err.isSome then "Verification error" else r.reasoning
      ({ c with
          status := st, confidence := r.confidence, reasoning := reas,
          sourceType := SourceTypeEvidenceBacked, evidences := searchResults,
          createdAt := now },
       searchWarnings)

/-- `Engine.verifyClaims`, modelled sequentially in claim order: each Go
task writes its result to its own index of the `claims` slice, so the
final claim list is deterministic and index-stable; the warnings list is
a mutex-guarded append whose order depends on scheduling, and this model
fixes the claim-order interleaving.  `oracle i` is the environment seen
by the task for claim `i`. -/
def Engine.verifyClaims (airGapped : Bool) (now : Nat)
    (oracle : Nat → ClaimOracle) : Nat → List Claim → List Claim × List Warning
  | _, [] => ([], [])
  | i, c :: rest =>
    let (c1, ws) := Engine.verifyOne airGapped now (oracle i) c
    let (rest1, ws1) := Engine.verifyClaims airGapped now oracle (i + 1) rest
    (c1 :: rest1, ws ++ ws1)

/-- The counting `switch` in `Engine.calculateAnalysis`: the number of
claims whose status equals `s` (each loop iteration increments exactly
one of the three counters, chosen by the status string). -/
def countStatus (claims : List Claim) (s : String) : Nat :=
  List.countP (fun c => c.status = s) claims

/-- `Engine.calculateAnalysis`: counts per final status and the overall
score `(verified + 0.5 * mixed) / total * 10`, `0` when there are no
claims.  `newId` abstracts `uuid.New().String()`, `now` abstracts
`time.Now()`. -/
def Engine.calculateAnalysis (newId : String) (docHash : String)
    (claims : List Claim) (durationMs : Int) (now : Nat) : AnalysisResult :=
  let verified := countStatus claims StatusVerified
  let mixed := countStatus claims StatusMixed
  let unsupported := countStatus claims StatusUnsupported
  let score : ℚ :=
    if claims.length > 0 then
      (((verified : ℚ) + (mixed : ℚ) * (1 / 2)) / (claims.length : ℚ)) * 10
    else 0
  { id := newId, documentHash := docHash, overallScore := score
    totalClaims := claims.length, verifiedClaims := verified
    mixedClaims := mixed, unsupportedClaims := unsupported
    processingTimeMs := durationMs, status := "completed", createdAt := now }

/-- The store capability as `Engine.VerifyText` uses it
(`database.Store`): the cache lookup by document hash, the claims lookup
for a cached analysis, and the two best-effort save operations. -/
structure Store where
  getAnalysisByHash : String → Except String (Option AnalysisResult)
  getClaimsByAnalysis : String → Except String (List Claim)
  saveAnalysis : AnalysisResult → Except String Unit
  saveClaims : String → List Claim → Except String Unit

/-- Instrumentation for one `Engine.VerifyText` run: how many extraction
calls were made and how many per-claim verification tasks were started
(each such task is what performs model and search calls). -/
structure RunTrace where
  extractCalls : Nat
  verifyCalls : Nat
deriving Repr, DecidableEq

/-- `Engine.VerifyText`: the full pipeline.  `docHash` stands for the
hex-encoded SHA-256 of the input text (the hashing itself is outside the
model); `extractOutcome` is the oracle outcome of
`e.extractor.Extract(ctx, text)`.  A cache-lookup error is logged and
ignored (`existing` is `nil` in Go when `err != nil`), so it falls
through to the full run; on a cache hit the claims-lookup error is
discarded (`claims, _ := …`) and the response carries the cached
analysis, its id, and no warnings.  Save errors are logged and ignored. -/
def Engine.VerifyText (airGapped : Bool) (store : Store) (docHash : String)
    (extractOutcome : Except String (List Claim)) (oracle : Nat → ClaimOracle)
    (newId : String) (now : Nat) (durationMs : Int) :
    Except String VerificationResponse × RunTrace :=
  let existing : Option AnalysisResult :=
    match store.getAnalysisByHash docHash with
    | Except.error _ => none
    | Except.ok r => r
  match existing with
  | some a =>
    let claims : List Claim :=
      match store.getClaimsByAnalysis a.id with
      | Except.error _ => []
      | Except.ok cs => cs
    (Except.ok { id := a.id, documentHash := docHash, analysis := a
                 claims := claims, warnings := [] },
     { extractCalls := 0, verifyCalls := 0 })
  | none =>
    match extractOutcome with
    | Except.error e => (Except.error e, { extractCalls := 1, verifyCalls := 0 })
    | Except.ok claims0 =>
      let vc := Engine.verifyClaims airGapped now oracle 0 claims0
      let analysis := Engine.calculateAnalysis newId docHash vc.1 durationMs now
      (Except.ok { id := analysis.id, documentHash := docHash
                   analysis := analysis, claims := vc.1, warnings := vc.2 },
       { extractCalls := 1, verifyCalls := claims0.length })

/-- The state of one per-claim task with respect to the admission
semaphore of `Engine.verifyClaims` (`make(chan struct{}, 5)`): spawned
but not yet admitted, holding a semaphore slot (its verification work in
flight), or finished (slot released). -/
inductive TaskState where
  | waiting
  | inFlight
  | done
deriving Repr, DecidableEq

/-- The number of verification tasks currently in flight, i.e. the number
of occupied slots of the semaphore channel. -/
def inFlightCount (ts : List TaskState) : Nat :=
  List.countP (fun t => t = TaskState.inFlight) ts

/-- One scheduler step of the task pool in `Engine.verifyClaims`: a
waiting task's `semaphore <- struct{}{}` send completes only while the
5-slot buffer has a free slot (fewer than 5 holders); an in-flight task
finishes its verification and releases its slot (`<-semaphore`). -/
inductive PoolStep : List TaskState → List TaskState → Prop where
  | acquire (ts : List TaskState) (i : Nat)
      (hw : ts[i]? = some TaskState.waiting) (hc : inFlightCount ts < 5) :
      PoolStep ts (ts.set i TaskState.inFlight)
  | release (ts : List TaskState) (i : Nat)
      (hf : ts[i]? = some TaskState.inFlight) :
      PoolStep ts (ts.set i TaskState.done)

/-- The pool states reachable in a run of `Engine.verifyClaims` over `n`
claims: all `n` tasks are spawned immediately (the `go func` loop), then
scheduler steps interleave. -/
inductive PoolReachable : List TaskState → Prop where
  | init (n : Nat) : PoolReachable (List.replicate n TaskState.waiting)
  | step {ts ts' : List TaskState} :
      PoolReachable ts → PoolStep ts ts' → PoolReachable ts'

lemma mapVerificationStatus_cases (s : String) :
    mapVerificationStatus s = StatusVerified ∨ mapVerificationStatus s = StatusMixed ∨
      mapVerificationStatus s = StatusUnsupported := by
  unfold mapVerificationStatus
  split_ifs <;> simp

lemma verifyOne_status_cases (ag : Bool) (now : Nat) (o : ClaimOracle) (c : Claim) :
    (Engine.verifyOne ag now o c).1.status = StatusVerified ∨
      (Engine.verifyOne ag now o c).1.status = StatusMixed ∨
      (Engine.verifyOne ag now o c).1.status = StatusUnsupported := by
  unfold Engine.verifyOne ClaimVerifier.VerifyWithoutEvidence ClaimVerifier.Verify
  rcases hk : o.knowledgeLLM with e | r <;> rcases he : o.evidenceLLM with e2 | r2 <;>
    cases ag <;> split_ifs <;> simp_all <;>
    first
      | exact mapVerificationStatus_cases _
      | (split_ifs <;> simp_all <;> exact mapVerificationStatus_cases _)

lemma verifyClaims_length (ag : Bool) (now : Nat) (oracle : Nat → ClaimOracle) :
    ∀ (i : Nat) (cs : List Claim),
      (Engine.verifyClaims ag now oracle i cs).1.length = cs.length := by
  intro i cs
  induction cs generalizing i with
  | nil => rfl
  | cons c rest ih => simp [Engine.verifyClaims, ih]

lemma verifyClaims_status_cases (ag : Bool) (now : Nat) (oracle : Nat → ClaimOracle) :
    ∀ (i : Nat) (cs : List Claim) (c1 : Claim),
      c1 ∈ (Engine.verifyClaims ag now oracle i cs).1 →
      c1.status = StatusVerified ∨ c1.status = StatusMixed ∨
        c1.status = StatusUnsupported := by
  intro i cs
  induction cs generalizing i with
  | nil => intro c1 h; simp [Engine.verifyClaims] at h
  | cons c rest ih =>
    intro c1 h
    simp only [Engine.verifyClaims] at h
    rcases List.mem_cons.mp h with h1 | h1
    · rw [h1]; exact verifyOne_status_cases ag now (oracle i) c
    · exact ih (i + 1) c1 h1

lemma verifyOne_airGapped_sourceType (now : Nat) (o : ClaimOracle) (c : Claim) :
    (Engine.verifyOne true now o c).1.sourceType = SourceTypeModelBased := by
  unfold Engine.verifyOne ClaimVerifier.VerifyWithoutEvidence
  rcases hk : o.knowledgeLLM with e | r <;> simp_all

lemma verifyClaims_airGapped_sourceType (now : Nat) (oracle : Nat → ClaimOracle) :
    ∀ (i : Nat) (cs : List Claim) (c1 : Claim),
      c1 ∈ (Engine.verifyClaims true now oracle i cs).1 →
      c1.sourceType = SourceTypeModelBased := by
  intro i cs
  induction cs generalizing i with
  | nil => intro c1 h; simp [Engine.verifyClaims] at h
  | cons c rest ih =>
    intro c1 h
    simp only [Engine.verifyClaims] at h
    rcases List.mem_cons.mp h with h1 | h1
    · rw [h1]; exact verifyOne_airGapped_sourceType now (oracle i) c
    · exact ih (i + 1) c1 h1

lemma countStatus_tri (cs : List Claim)
    (h : ∀ c ∈ cs, c.status = StatusVerified ∨ c.status = StatusMixed ∨
      c.status = StatusUnsupported) :
    countStatus cs StatusVerified + countStatus cs StatusMixed +
      countStatus cs StatusUnsupported = cs.length := by
  induction cs with
  | nil => rfl
  | cons c rest ih =>
    have hc := h c (List.mem_cons_self _ _)
    have hrest := ih (fun x hx => h x (List.mem_cons_of_mem _ hx))
    simp only [countStatus, StatusVerified, StatusMixed, StatusUnsupported,
      List.countP_cons, List.length_cons] at *
    rcases hc with h1 | h1 | h1 <;> simp [h1] <;> omega

lemma score_nonneg_le_ten (v m n : Nat) (hvm : v + m ≤ n) (hn : 0 < n) :
    0 ≤ (((v : ℚ) + (m : ℚ) * (1 / 2)) / (n : ℚ)) * 10 ∧
      (((v : ℚ) + (m : ℚ) * (1 / 2)) / (n : ℚ)) * 10 ≤ 10 := by
  have hn' : (0 : ℚ) < (n : ℚ) := by exact_mod_cast hn
  have hm : (0 : ℚ) ≤ (m : ℚ) := Nat.cast_nonneg m
  have hv : (0 : ℚ) ≤ (v : ℚ) := Nat.cast_nonneg v
  constructor
  · positivity
  · have hvm' : (v : ℚ) + (m : ℚ) ≤ (n : ℚ) := by exact_mod_cast hvm
    have hnum : (v : ℚ) + (m : ℚ) * (1 / 2) ≤ (n : ℚ) := by linarith
    have hq : ((v : ℚ) + (m : ℚ) * (1 / 2)) / (n : ℚ) ≤ 1 := by
      rw [div_le_one hn']; exact hnum
    linarith

lemma score_eq_ten_iff (v m u n : Nat) (hsum : v + m + u = n) (hn : 0 < n) :
    (((v : ℚ) + (m : ℚ) * (1 / 2)) / (n : ℚ)) * 10 = 10 ↔ m = 0 ∧ u = 0 := by
  have hn' : ((n : ℚ)) ≠ 0 := by
    exact_mod_cast Nat.pos_iff_ne_zero.mp hn
  rw [div_mul_eq_mul_div, div_eq_iff hn']
  constructor
  · intro h
    have h2 : ((10 * v + 5 * m : Nat) : ℚ) = ((10 * n : Nat) : ℚ) := by
      push_cast
      linarith
    have h3 : 10 * v + 5 * m = 10 * n := Nat.cast_injective h2
    omega
  · intro ⟨hm, hu⟩
    subst hm hu
    push_cast
    have : v = n := by omega
    subst this
    ring

lemma score_eq_zero_iff (v m u n : Nat) (hsum : v + m + u = n) (hn : 0 < n) :
    (((v : ℚ) + (m : ℚ) * (1 / 2)) / (n : ℚ)) * 10 = 0 ↔ v = 0 ∧ m = 0 := by
  have hn' : ((n : ℚ)) ≠ 0 := by
    exact_mod_cast Nat.pos_iff_ne_zero.mp hn
  rw [div_mul_eq_mul_div, div_eq_iff hn']
  constructor
  · intro h
    have h2 : ((10 * v + 5 * m : Nat) : ℚ) = ((0 : Nat) : ℚ) := by
      push_cast
      linarith
    have h3 : 10 * v + 5 * m = 0 := Nat.cast_injective h2
    omega
  · intro ⟨hv, hm⟩
    subst hv hm
    push_cast
    ring

lemma countStatus_eq_length_iff (cs : List Claim) (s : String) :
    countStatus cs s = cs.length ↔ ∀ c ∈ cs, c.status = s := by
  unfold countStatus
  rw [List.countP_eq_length]
  constructor
  · intro h c hc
    have := h c hc
    simpa using this
  · intro h c hc
    simp [h c hc]

lemma countStatus_eq_zero_iff (cs : List Claim) (s : String) :
    countStatus cs s = 0 ↔ ∀ c ∈ cs, c.status ≠ s := by
  unfold countStatus
  rw [List.countP_eq_zero]
  constructor
  · intro h c hc
    have := h c hc
    simpa using this
  · intro h c hc
    simp [h c hc]

/-- A sample claim used as a concrete input in counterexamples and
witnesses. -/
def sampleClaim : Claim :=
  { id := "claim-1", text := "Water boils at 100C at sea level."
    type := "factual", sentenceIndex := 0, status := StatusPending
    confidence := 0, sourceType := "", evidences := [], reasoning := ""
    createdAt := 0 }

/-- Claim C5, counterexample: on an empty evidence list,
`ClaimVerifier.Verify` returns the reasoning string
"No evidence found to support this claim", not exactly
"No evidence found" (here at a concrete claim and oracle; the result is
independent of both). -/
theorem C5_counterexample :
    (ClaimVerifier.Verify sampleClaim [] (Except.error "unused")).status = StatusUnsupported ∧
      (ClaimVerifier.Verify sampleClaim [] (Except.error "unused")).confidence = 0 ∧
      (ClaimVerifier.Verify sampleClaim [] (Except.error "unused")).reasoning ≠
        "No evidence found" := by
  refine ⟨rfl, rfl, ?_⟩
  decide

/-- Claim C5 (amended): for every claim, an empty evidence list makes the
evidence-backed `ClaimVerifier.Verify` return exactly status
`unsupported`, confidence `0`, reasoning
"No evidence found to support this claim", no error, and no
language-model call, regardless of the model oracle. -/
theorem C5_verify_empty_evidence (c : Claim) (llm : Except String ParsedVerification) :
    ClaimVerifier.Verify c [] llm =
      { status := StatusUnsupported, confidence := 0
        reasoning := "No evidence found to support this claim"
        err := none, llmCalled := false } := by
  rfl

/-- Claim C10: `ClaimExtractor.parseResponse` copies each parsed element's type
string verbatim into `Claim.type` (no validation against the claim-type
taxonomy), and initializes every claim to `pending` status: for any
parsed extraction response, any fresh-id supply and any start index, the
produced claims' type strings are exactly the parsed type strings. -/
theorem C10_type_copied_verbatim (freshId : Nat → String) (i : Nat)
    (ecs : List ExtractedClaim) :
    (ClaimExtractor.claimsFromParsed freshId i ecs).map Claim.type =
        ecs.map ExtractedClaim.type ∧
      ∀ c ∈ ClaimExtractor.claimsFromParsed freshId i ecs,
        c.status = StatusPending := by
  induction ecs generalizing i with
  | nil => exact ⟨rfl, by intro c h; simp [ClaimExtractor.claimsFromParsed] at h⟩
  | cons ec rest ih =>
    obtain ⟨ih1, ih2⟩ := ih (i + 1)
    refine ⟨by simp [ClaimExtractor.claimsFromParsed, ih1], ?_⟩
    intro c hc
    rcases List.mem_cons.mp hc with h1 | h1
    · rw [h1]
    · exact ih2 c h1

/-- Claim C6: with zero available sources, `AggregatedSearchClient.Search`
returns (for every event trace, without blocking) empty evidence plus
exactly the one warning "No search sources configured"; and in an
air-gapped run every claim produced by `Engine.verifyClaims` is tagged
`sourceType = model_based`. -/
theorem C6_zero_sources (events : List CollectEvent) (now : Nat)
    (oracle : Nat → ClaimOracle) (i : Nat) (cs : List Claim) :
    AggregatedSearchClient.Search [] events =
        some ([], [{ source := "search", message := "No search sources configured" }]) ∧
      (∀ evs ws, AggregatedSearchClient.Search [] events = some (evs, ws) →
        ws.length = 1) ∧
      ∀ c ∈ (Engine.verifyClaims true now oracle i cs).1,
        c.sourceType = SourceTypeModelBased := by
  refine ⟨rfl, ?_, ?_⟩
  · intro evs ws h
    rw [show AggregatedSearchClient.Search [] events =
        some (([] : List Evidence),
          [({ source := "search", message := "No search sources configured" } : Warning)])
      from rfl] at h
    injection h with h1
    injection h1 with h2 h3
    rw [← h3]
    rfl
  · exact fun c hc => verifyClaims_airGapped_sourceType now oracle i cs c hc

/-- Evidence arriving from a source after the aggregator's global timeout
already fired, used in the Claim C7 analysis. -/
def lateEvidence : Evidence :=
  { id := "late-1", sourceName := "PubMed"
    sourceURL := "https://pubmed.ncbi.nlm.nih.gov/1/", sourceType := "academic"
    snippet := "A late result", relevanceScore := 0, retrievedAt := 0 }

/-- Claim C7 is the intended behaviour but the code does not implement it:
in `AggregatedSearchClient.Search` the `break` in the timeout and
cancellation cases exits only the `select`, never the collection loop,
and `time.After` fires once; so with two sources both still pending when
the 15-second timeout fires, the loop does not return promptly with
per-source warnings — it stays blocked waiting on the remaining sources
(first conjunct), and a result arriving after the timeout is still
consumed and merged as evidence (second conjunct). -/
theorem C7_timeout_keeps_collecting :
    AggregatedSearchClient.Search ["DuckDuckGo", "PubMed"] [CollectEvent.timeout] = none ∧
      AggregatedSearchClient.Search ["DuckDuckGo", "PubMed"]
          [CollectEvent.timeout,
            CollectEvent.result { source := "PubMed", evidences := [lateEvidence], error := none }] =
        some ([lateEvidence],
          [{ source := "search", message := "Some sources timed out" }]) :=
  ⟨rfl, rfl⟩

/-- Claim C8: in the pool model of `Engine.verifyClaims`' admission
semaphore (`make(chan struct{}, 5)`), every reachable scheduler state has
at most 5 verification tasks in flight. -/
theorem C8_inflight_bound (ts : List TaskState) (h : PoolReachable ts) :
    inFlightCount ts ≤ 5 := by
  induction h with
  | init n =>
    have : inFlightCount (List.replicate n TaskState.waiting) = 0 := by
      unfold inFlightCount
      rw [List.countP_eq_zero]
      intro t ht
      have := List.eq_of_mem_replicate ht
      simp [this]
    omega
  | step hreach hstep ih =>
    cases hstep with
    | acquire i hw hc =>
      obtain ⟨hi, hget⟩ := List.getElem?_eq_some.mp hw
      unfold inFlightCount at *
      rw [List.countP_set _ _ _ _ hi]
      simp [hget]
      omega
    | release i hf =>
      obtain ⟨hi, hget⟩ := List.getElem?_eq_some.mp hf
      unfold inFlightCount at *
      rw [List.countP_set _ _ _ _ hi]
      simp [hget]
      omega

/-- Witness for C8: the pool state of a 20-claim run after one task is
admitted is reachable, and the bound applies to it. -/
theorem C8_inflight_bound_witness :
    PoolReachable ((List.replicate 20 TaskState.waiting).set 0 TaskState.inFlight) ∧
      inFlightCount ((List.replicate 20 TaskState.waiting).set 0 TaskState.inFlight) ≤ 5 :=
  have hreach : PoolReachable ((List.replicate 20 TaskState.waiting).set 0 TaskState.inFlight) :=
    PoolReachable.step (PoolReachable.init 20)
      (PoolStep.acquire _ 0 (by decide) (by decide))
  ⟨hreach, C8_inflight_bound _ hreach⟩

lemma collectLoop_results (rs : List SearchResult)
    (hok : ∀ r ∈ rs, r.error = none) :
    ∀ acc : List Evidence × List Warning,
      collectLoop rs.length (rs.map CollectEvent.result) acc =
        some (acc.1 ++ (rs.map SearchResult.evidences).flatten, acc.2) := by
  induction rs with
  | nil => intro acc; simp [collectLoop]
  | cons r rest ih =>
    intro acc
    have hr : r.error = none := hok r (List.mem_cons_self _ _)
    have ih' := ih (fun x hx => hok x (List.mem_cons_of_mem _ hx))
    simp [collectLoop, collectStep, hr, ih']

/-- Claim C1, counterexample: the aggregator applies no URL
deduplication and no empty-snippet filtering.  One available source
returning two evidences with the same source URL, the first of them with
an empty snippet, yields a merged list that keeps both (same URL twice)
and keeps the empty-snippet evidence. -/
theorem C1_counterexample :
    AggregatedSearchClient.Search ["DuckDuckGo"]
        [CollectEvent.result
          { source := "DuckDuckGo"
            evidences :=
              [{ id := "e1", sourceName := "DuckDuckGo"
                 sourceURL := "https://example.org/a", sourceType := "web"
                 snippet := "", relevanceScore := 0, retrievedAt := 0 },
               { id := "e2", sourceName := "DuckDuckGo"
                 sourceURL := "https://example.org/a", sourceType := "web"
                 snippet := "some text", relevanceScore := 0, retrievedAt := 0 }]
            error := none }] =
      some
        ([{ id := "e1", sourceName := "DuckDuckGo"
            sourceURL := "https://example.org/a", sourceType := "web"
            snippet := "", relevanceScore := 0, retrievedAt := 0 },
          { id := "e2", sourceName := "DuckDuckGo"
            sourceURL := "https://example.org/a", sourceType := "web"
            snippet := "some text", relevanceScore := 0, retrievedAt := 0 }], []) :=
  rfl

/-- Claim C1 (amended): for every call to the aggregator's `Search` with
at least one available source in which every source returns without
error, the merged evidence list is exactly the concatenation, in arrival
order, of the per-source evidence lists — duplicate source URLs and
empty snippets are retained (no deduplication, filtering or capping is
applied) — and no warnings are produced. -/
theorem C1_merge_is_concatenation (clients : List String) (rs : List SearchResult)
    (hne : clients ≠ []) (hlen : rs.length = clients.length)
    (hok : ∀ r ∈ rs, r.error = none) :
    AggregatedSearchClient.Search clients (rs.map CollectEvent.result) =
      some ((rs.map SearchResult.evidences).flatten, []) := by
  unfold AggregatedSearchClient.Search
  rw [if_neg (by simpa using hne), ← hlen]
  simpa using collectLoop_results rs hok ([], [])

/-- Witness for C1 (amended): two sources, each returning one evidence;
the merged list is their concatenation. -/
theorem C1_merge_is_concatenation_witness :
    (["DuckDuckGo", "PubMed"] : List String) ≠ [] ∧
      AggregatedSearchClient.Search ["DuckDuckGo", "PubMed"]
          [CollectEvent.result { source := "DuckDuckGo", evidences := [lateEvidence], error := none },
           CollectEvent.result { source := "PubMed", evidences := [lateEvidence], error := none }] =
        some ([lateEvidence, lateEvidence], []) := by
  constructor
  · decide
  · have h := C1_merge_is_concatenation ["DuckDuckGo", "PubMed"]
      [{ source := "DuckDuckGo", evidences := [lateEvidence], error := none },
       { source := "PubMed", evidences := [lateEvidence], error := none }]
      (by decide) rfl (by intro r hr; fin_cases hr <;> rfl)
    simpa using h

lemma VerifyText_cache_hit_eq (ag : Bool) (store : Store) (docHash : String)
    (extractOutcome : Except String (List Claim)) (oracle : Nat → ClaimOracle)
    (newId : String) (now : Nat) (dur : Int) (a : AnalysisResult)
    (hhit : store.getAnalysisByHash docHash = Except.ok (some a)) :
    Engine.VerifyText ag store docHash extractOutcome oracle newId now dur =
      (Except.ok
        { id := a.id, documentHash := docHash, analysis := a
          claims :=
            match store.getClaimsByAnalysis a.id with
            | Except.error _ => []
            | Except.ok cs => cs
          warnings := [] },
       { extractCalls := 0, verifyCalls := 0 }) := by
  simp only [Engine.VerifyText, hhit]

lemma VerifyText_full_run_eq (ag : Bool) (store : Store) (docHash : String)
    (cs0 : List Claim) (oracle : Nat → ClaimOracle)
    (newId : String) (now : Nat) (dur : Int)
    (hmiss : store.getAnalysisByHash docHash = Except.ok none) :
    Engine.VerifyText ag store docHash (Except.ok cs0) oracle newId now dur =
      (Except.ok
        { id := (Engine.calculateAnalysis newId docHash
              (Engine.verifyClaims ag now oracle 0 cs0).1 dur now).id
          documentHash := docHash
          analysis := Engine.calculateAnalysis newId docHash
            (Engine.verifyClaims ag now oracle 0 cs0).1 dur now
          claims := (Engine.verifyClaims ag now oracle 0 cs0).1
          warnings := (Engine.verifyClaims ag now oracle 0 cs0).2 },
       { extractCalls := 1, verifyCalls := cs0.length }) := by
  simp only [Engine.VerifyText, hmiss]

lemma calculateAnalysis_counts (newId docHash : String) (cs : List Claim)
    (dur : Int) (now : Nat) :
    (Engine.calculateAnalysis newId docHash cs dur now).verifiedClaims =
        countStatus cs StatusVerified ∧
      (Engine.calculateAnalysis newId docHash cs dur now).mixedClaims =
        countStatus cs StatusMixed ∧
      (Engine.calculateAnalysis newId docHash cs dur now).unsupportedClaims =
        countStatus cs StatusUnsupported ∧
      (Engine.calculateAnalysis newId docHash cs dur now).totalClaims = cs.length ∧
      (Engine.calculateAnalysis newId docHash cs dur now).overallScore =
        (if cs.length > 0 then
          (((countStatus cs StatusVerified : ℚ) +
              (countStatus cs StatusMixed : ℚ) * (1 / 2)) / (cs.length : ℚ)) * 10
        else 0) :=
  ⟨rfl, rfl, rfl, rfl, rfl⟩

lemma run_analysis_invariant (ag : Bool) (now : Nat) (oracle : Nat → ClaimOracle)
    (cs0 : List Claim) (newId docHash : String) (dur : Int) :
    (Engine.calculateAnalysis newId docHash
          (Engine.verifyClaims ag now oracle 0 cs0).1 dur now).verifiedClaims +
        (Engine.calculateAnalysis newId docHash
          (Engine.verifyClaims ag now oracle 0 cs0).1 dur now).mixedClaims +
        (Engine.calculateAnalysis newId docHash
          (Engine.verifyClaims ag now oracle 0 cs0).1 dur now).unsupportedClaims =
        (Engine.calculateAnalysis newId docHash
          (Engine.verifyClaims ag now oracle 0 cs0).1 dur now).totalClaims ∧
      (Engine.calculateAnalysis newId docHash
          (Engine.verifyClaims ag now oracle 0 cs0).1 dur now).totalClaims = cs0.length ∧
      0 ≤ (Engine.calculateAnalysis newId docHash
          (Engine.verifyClaims ag now oracle 0 cs0).1 dur now).overallScore ∧
      (Engine.calculateAnalysis newId docHash
          (Engine.verifyClaims ag now oracle 0 cs0).1 dur now).overallScore ≤ 10 := by
  obtain ⟨h1, h2, h3, h4, h5⟩ := calculateAnalysis_counts newId docHash
    (Engine.verifyClaims ag now oracle 0 cs0).1 dur now
  have hsum := countStatus_tri (Engine.verifyClaims ag now oracle 0 cs0).1
    (fun c hc => verifyClaims_status_cases ag now oracle 0 cs0 c hc)
  have hlen := verifyClaims_length ag now oracle 0 cs0
  rw [h1, h2, h3, h4, h5]
  rcases Nat.eq_zero_or_pos (Engine.verifyClaims ag now oracle 0 cs0).1.length
    with h0 | h0
  · rw [if_neg (by omega)]
    exact ⟨hsum, hlen, le_refl 0, by norm_num⟩
  · rw [if_pos h0]
    have hb := score_nonneg_le_ten
      (countStatus (Engine.verifyClaims ag now oracle 0 cs0).1 StatusVerified)
      (countStatus (Engine.verifyClaims ag now oracle 0 cs0).1 StatusMixed)
      (Engine.verifyClaims ag now oracle 0 cs0).1.length (by omega) h0
    exact ⟨hsum, hlen, hb.1, hb.2⟩

/-- Claim C2: on every non-cached run that completes (cache lookup finds
nothing, extraction returns `cs0`), the produced `AnalysisResult`
satisfies `verifiedClaims + mixedClaims + unsupportedClaims = totalClaims`,
`totalClaims` equals the number of extracted claims, and the overall
score lies in `[0, 10]` — for every oracle behaviour of search and
model. -/
theorem C2_analysis_invariant (ag : Bool) (store : Store) (docHash : String)
    (cs0 : List Claim) (oracle : Nat → ClaimOracle) (newId : String) (now : Nat)
    (dur : Int) (hmiss : store.getAnalysisByHash docHash = Except.ok none) :
    ∃ resp : VerificationResponse,
      (Engine.VerifyText ag store docHash (Except.ok cs0) oracle newId now dur).1 =
          Except.ok resp ∧
        resp.analysis.verifiedClaims + resp.analysis.mixedClaims +
            resp.analysis.unsupportedClaims = resp.analysis.totalClaims ∧
        resp.analysis.totalClaims = cs0.length ∧
        0 ≤ resp.analysis.overallScore ∧ resp.analysis.overallScore ≤ 10 := by
  rw [VerifyText_full_run_eq ag store docHash cs0 oracle newId now dur hmiss]
  exact ⟨_, rfl, run_analysis_invariant ag now oracle cs0 newId docHash dur⟩

/-- Claim C3: whenever the cache lookup finds a stored `AnalysisResult`
for the document hash, `Engine.VerifyText` returns a response carrying
that result's id (and the result itself), performs zero extraction calls
and zero per-claim verification calls; and a cache-lookup error is
non-fatal — the run then behaves exactly as if the lookup had found
nothing (full pipeline). -/
theorem C3_cache_hit_idempotent (ag : Bool) (store : Store) (docHash : String)
    (extractOutcome : Except String (List Claim)) (oracle : Nat → ClaimOracle)
    (newId : String) (now : Nat) (dur : Int) (a : AnalysisResult)
    (hhit : store.getAnalysisByHash docHash = Except.ok (some a)) :
    (∃ resp : VerificationResponse,
        (Engine.VerifyText ag store docHash extractOutcome oracle newId now dur).1 =
            Except.ok resp ∧ resp.id = a.id ∧ resp.analysis = a) ∧
      (Engine.VerifyText ag store docHash extractOutcome oracle newId now dur).2 =
        { extractCalls := 0, verifyCalls := 0 } ∧
      ∀ (store' : Store) (e : String),
        store'.getAnalysisByHash docHash = Except.error e →
        Engine.VerifyText ag store' docHash extractOutcome oracle newId now dur =
          Engine.VerifyText ag
            { getAnalysisByHash := fun _ => Except.ok none
              getClaimsByAnalysis := store'.getClaimsByAnalysis
              saveAnalysis := store'.saveAnalysis
              saveClaims := store'.saveClaims }
            docHash extractOutcome oracle newId now dur := by
  refine ⟨?_, ?_, ?_⟩
  · rw [VerifyText_cache_hit_eq ag store docHash extractOutcome oracle newId now dur a hhit]
    exact ⟨_, rfl, rfl, rfl⟩
  · rw [VerifyText_cache_hit_eq ag store docHash extractOutcome oracle newId now dur a hhit]
  · intro store' e herr
    simp only [Engine.VerifyText, herr]

/-- Claim C9: on every cache hit the returned response has an empty
`warnings` field, and an error from the cached-claims lookup is silently
discarded: the response's claim list is then empty, whatever
`totalClaims` the cached analysis records. -/
theorem C9_cached_no_warnings (ag : Bool) (store : Store) (docHash : String)
    (extractOutcome : Except String (List Claim)) (oracle : Nat → ClaimOracle)
    (newId : String) (now : Nat) (dur : Int) (a : AnalysisResult)
    (hhit : store.getAnalysisByHash docHash = Except.ok (some a)) :
    ∃ resp : VerificationResponse,
      (Engine.VerifyText ag store docHash extractOutcome oracle newId now dur).1 =
          Except.ok resp ∧
        resp.warnings = [] ∧
        ∀ e : String, store.getClaimsByAnalysis a.id = Except.error e →
          resp.claims = [] := by
  rw [VerifyText_cache_hit_eq ag store docHash extractOutcome oracle newId now dur a hhit]
  refine ⟨_, rfl, rfl, ?_⟩
  intro e herr
  simp [herr]

/-- A per-claim oracle whose model answers are always a confident
"verified" verdict; used in witnesses. -/
def verifiedOracle : ClaimOracle :=
  { searchOutcome := ([], [])
    evidenceLLM := Except.ok { status := "verified", confidence := 1, reasoning := "ok" }
    knowledgeLLM := Except.ok { status := "verified", confidence := 1, reasoning := "ok" } }

/-- A stored analysis used as the cached entry in witnesses. -/
def cachedAnalysis : AnalysisResult :=
  { id := "analysis-7", documentHash := "doc-hash", overallScore := 10
    totalClaims := 3, verifiedClaims := 3, mixedClaims := 0, unsupportedClaims := 0
    processingTimeMs := 5, status := "completed", createdAt := 1 }

/-- A store whose hash lookup hits `cachedAnalysis` and whose claims
lookup fails; used in witnesses. -/
def hitStore : Store :=
  { getAnalysisByHash := fun _ => Except.ok (some cachedAnalysis)
    getClaimsByAnalysis := fun _ => Except.error "db closed"
    saveAnalysis := fun _ => Except.ok ()
    saveClaims := fun _ _ => Except.ok () }

/-- A store whose hash lookup finds nothing; used in witnesses. -/
def missStore : Store :=
  { getAnalysisByHash := fun _ => Except.ok none
    getClaimsByAnalysis := fun _ => Except.ok []
    saveAnalysis := fun _ => Except.ok ()
    saveClaims := fun _ _ => Except.ok () }

/-- Witness for C2: a concrete non-cached run over one claim. -/
theorem C2_analysis_invariant_witness :
    missStore.getAnalysisByHash "doc-hash" = Except.ok none ∧
      ∃ resp : VerificationResponse,
        (Engine.VerifyText true missStore "doc-hash" (Except.ok [sampleClaim])
            (fun _ => verifiedOracle) "new-id" 0 0).1 = Except.ok resp ∧
          resp.analysis.verifiedClaims + resp.analysis.mixedClaims +
              resp.analysis.unsupportedClaims = resp.analysis.totalClaims ∧
          resp.analysis.totalClaims = [sampleClaim].length ∧
          0 ≤ resp.analysis.overallScore ∧ resp.analysis.overallScore ≤ 10 :=
  ⟨rfl, C2_analysis_invariant true missStore "doc-hash" [sampleClaim]
    (fun _ => verifiedOracle) "new-id" 0 0 rfl⟩

/-- Witness for C3: a concrete cache hit returning the stored analysis
with no extraction or verification work. -/
theorem C3_cache_hit_idempotent_witness :
    hitStore.getAnalysisByHash "doc-hash" = Except.ok (some cachedAnalysis) ∧
      (∃ resp : VerificationResponse,
        (Engine.VerifyText false hitStore "doc-hash" (Except.ok [])
            (fun _ => verifiedOracle) "new-id" 0 0).1 = Except.ok resp ∧
          resp.id = cachedAnalysis.id ∧ resp.analysis = cachedAnalysis) ∧
      (Engine.VerifyText false hitStore "doc-hash" (Except.ok [])
          (fun _ => verifiedOracle) "new-id" 0 0).2 =
        { extractCalls := 0, verifyCalls := 0 } :=
  have h := C3_cache_hit_idempotent false hitStore "doc-hash" (Except.ok [])
    (fun _ => verifiedOracle) "new-id" 0 0 cachedAnalysis rfl
  ⟨rfl, h.1, h.2.1⟩

/-- Witness for C9: a concrete cache hit whose claims lookup fails — the
response has no warnings and an empty claim list although the cached
analysis records 3 claims. -/
theorem C9_cached_no_warnings_witness :
    hitStore.getAnalysisByHash "doc-hash" = Except.ok (some cachedAnalysis) ∧
      0 < cachedAnalysis.totalClaims ∧
      ∃ resp : VerificationResponse,
        (Engine.VerifyText false hitStore "doc-hash" (Except.ok [])
            (fun _ => verifiedOracle) "new-id" 0 0).1 = Except.ok resp ∧
          resp.warnings = [] ∧ resp.claims = [] :=
  have h := C9_cached_no_warnings false hitStore "doc-hash" (Except.ok [])
    (fun _ => verifiedOracle) "new-id" 0 0 cachedAnalysis rfl
  match h with
  | ⟨resp, h1, h2, h3⟩ => ⟨rfl, by decide, resp, h1, h2, h3 "db closed" rfl⟩

lemma all_verified_iff_counts (cs : List Claim)
    (htri : ∀ c ∈ cs, c.status = StatusVerified ∨ c.status = StatusMixed ∨
      c.status = StatusUnsupported) :
    (∀ c ∈ cs, c.status = StatusVerified) ↔
      countStatus cs StatusMixed = 0 ∧ countStatus cs StatusUnsupported = 0 := by
  constructor
  · intro h
    constructor <;> rw [countStatus_eq_zero_iff] <;> intro c hc <;> rw [h c hc] <;>
      simp [StatusVerified, StatusMixed, StatusUnsupported]
  · intro hmu c hc
    rcases htri c hc with h1 | h1 | h1
    · exact h1
    · exact absurd h1 ((countStatus_eq_zero_iff cs StatusMixed).mp hmu.1 c hc)
    · exact absurd h1 ((countStatus_eq_zero_iff cs StatusUnsupported).mp hmu.2 c hc)

lemma all_unsupported_iff_counts (cs : List Claim)
    (htri : ∀ c ∈ cs, c.status = StatusVerified ∨ c.status = StatusMixed ∨
      c.status = StatusUnsupported) :
    (∀ c ∈ cs, c.status = StatusUnsupported) ↔
      countStatus cs StatusVerified = 0 ∧ countStatus cs StatusMixed = 0 := by
  constructor
  · intro h
    constructor <;> rw [countStatus_eq_zero_iff] <;> intro c hc <;> rw [h c hc] <;>
      simp [StatusVerified, StatusMixed, StatusUnsupported]
  · intro hvm c hc
    rcases htri c hc with h1 | h1 | h1
    · exact absurd h1 ((countStatus_eq_zero_iff cs StatusVerified).mp hvm.1 c hc)
    · exact absurd h1 ((countStatus_eq_zero_iff cs StatusMixed).mp hvm.2 c hc)
    · exact h1

/-- Claim C4, counterexample: a completed run with zero extracted claims
has `overallScore = 0`, while "every claim has status verified" holds
vacuously, so the claimed unconditional equivalence
`overallScore = 10 ↔ all verified` is false on the empty run. -/
theorem C4_counterexample :
    ¬(((Engine.calculateAnalysis "new-id" "doc-hash"
          (Engine.verifyClaims true 0 (fun _ => verifiedOracle) 0 []).1 0 0).overallScore =
            10 ↔
        ∀ c ∈ (Engine.verifyClaims true 0 (fun _ => verifiedOracle) 0 []).1,
          c.status = StatusVerified)) := by
  intro h
  have h10 := h.mpr (by intro c hc; simp [Engine.verifyClaims] at hc)
  rw [show (Engine.calculateAnalysis "new-id" "doc-hash"
      (Engine.verifyClaims true 0 (fun _ => verifiedOracle) 0 []).1 0 0).overallScore =
      0 from rfl] at h10
  norm_num at h10

/-- Claim C4 (amended): for every completed run with at least one
extracted claim, `overallScore = 10` iff every claim's final status is
`verified`, `overallScore = 0` iff every claim's final status is
`unsupported`, and in general
`overallScore = 10 * (verifiedClaims + 0.5 * mixedClaims) / totalClaims`
(the score is 0 when `totalClaims = 0`, which is where the unrestricted
"= 10 iff all verified" direction fails, see the counterexample). -/
theorem C4_score_boundaries (ag : Bool) (now : Nat) (oracle : Nat → ClaimOracle)
    (cs0 : List Claim) (newId docHash : String) (dur : Int) (hne : cs0 ≠ []) :
    ((Engine.calculateAnalysis newId docHash
          (Engine.verifyClaims ag now oracle 0 cs0).1 dur now).overallScore = 10 ↔
        ∀ c ∈ (Engine.verifyClaims ag now oracle 0 cs0).1,
          c.status = StatusVerified) ∧
      ((Engine.calculateAnalysis newId docHash
          (Engine.verifyClaims ag now oracle 0 cs0).1 dur now).overallScore = 0 ↔
        ∀ c ∈ (Engine.verifyClaims ag now oracle 0 cs0).1,
          c.status = StatusUnsupported) ∧
      (Engine.calculateAnalysis newId docHash
          (Engine.verifyClaims ag now oracle 0 cs0).1 dur now).overallScore =
        (((Engine.calculateAnalysis newId docHash
              (Engine.verifyClaims ag now oracle 0 cs0).1 dur now).verifiedClaims : ℚ) +
            ((Engine.calculateAnalysis newId docHash
              (Engine.verifyClaims ag now oracle 0 cs0).1 dur now).mixedClaims : ℚ) *
              (1 / 2)) /
          ((Engine.calculateAnalysis newId docHash
            (Engine.verifyClaims ag now oracle 0 cs0).1 dur now).totalClaims : ℚ) * 10 := by
  obtain ⟨h1, h2, h3, h4, h5⟩ := calculateAnalysis_counts newId docHash
    (Engine.verifyClaims ag now oracle 0 cs0).1 dur now
  have htri := fun c hc => verifyClaims_status_cases ag now oracle 0 cs0 c hc
  have hsum := countStatus_tri (Engine.verifyClaims ag now oracle 0 cs0).1 htri
  have hlen := verifyClaims_length ag now oracle 0 cs0
  have h0 : 0 < (Engine.verifyClaims ag now oracle 0 cs0).1.length := by
    rw [hlen]
    exact List.length_pos.mpr hne
  rw [h1, h2, h4, h5, if_pos h0]
  refine ⟨?_, ?_, rfl⟩
  · rw [score_eq_ten_iff (countStatus (Engine.verifyClaims ag now oracle 0 cs0).1 StatusVerified)
      (countStatus (Engine.verifyClaims ag now oracle 0 cs0).1 StatusMixed)
      (countStatus (Engine.verifyClaims ag now oracle 0 cs0).1 StatusUnsupported)
      (Engine.verifyClaims ag now oracle 0 cs0).1.length hsum h0]
    exact (all_verified_iff_counts _ htri).symm
  · rw [score_eq_zero_iff (countStatus (Engine.verifyClaims ag now oracle 0 cs0).1 StatusVerified)
      (countStatus (Engine.verifyClaims ag now oracle 0 cs0).1 StatusMixed)
      (countStatus (Engine.verifyClaims ag now oracle 0 cs0).1 StatusUnsupported)
      (Engine.verifyClaims ag now oracle 0 cs0).1.length hsum h0]
    exact (all_unsupported_iff_counts _ htri).symm

/-- Witness for C4 (amended): a concrete one-claim run in which the model
answers "verified"; the boundary characterisations and the score formula
apply to it. -/
theorem C4_score_boundaries_witness :
    [sampleClaim] ≠ ([] : List Claim) ∧
      (((Engine.calculateAnalysis "new-id" "doc-hash"
            (Engine.verifyClaims true 0 (fun _ => verifiedOracle) 0 [sampleClaim]).1 0
            0).overallScore = 10 ↔
          ∀ c ∈ (Engine.verifyClaims true 0 (fun _ => verifiedOracle) 0 [sampleClaim]).1,
            c.status = StatusVerified) ∧
        (((Engine.calculateAnalysis "new-id" "doc-hash"
            (Engine.verifyClaims true 0 (fun _ => verifiedOracle) 0 [sampleClaim]).1 0
            0).overallScore = 0 ↔
          ∀ c ∈ (Engine.verifyClaims true 0 (fun _ => verifiedOracle) 0 [sampleClaim]).1,
            c.status = StatusUnsupported)) ∧
        (Engine.calculateAnalysis "new-id" "doc-hash"
            (Engine.verifyClaims true 0 (fun _ => verifiedOracle) 0 [sampleClaim]).1 0
            0).overallScore =
          (((Engine.calculateAnalysis "new-id" "doc-hash"
                (Engine.verifyClaims true 0 (fun _ => verifiedOracle) 0 [sampleClaim]).1 0
                0).verifiedClaims : ℚ) +
              ((Engine.calculateAnalysis "new-id" "doc-hash"
                (Engine.verifyClaims true 0 (fun _ => verifiedOracle) 0 [sampleClaim]).1 0
                0).mixedClaims : ℚ) * (1 / 2)) /
            ((Engine.calculateAnalysis "new-id" "doc-hash"
              (Engine.verifyClaims true 0 (fun _ => verifiedOracle) 0 [sampleClaim]).1 0
              0).totalClaims : ℚ) * 10) :=
  ⟨List.cons_ne_nil _ _,
    C4_score_boundaries true 0 (fun _ => verifiedOracle) [sampleClaim] "new-id"
      "doc-hash" 0 (List.cons_ne_nil _ _)⟩
